import Mathlib

/-!
# Verification of the trivAI room registry (`backend/rooms.py`)

A shallow embedding of the multiplayer quiz-session coordinator: the data
model from `backend/models.py` and the registry operations from
`backend/rooms.py`.  Python dictionaries are modelled as association lists
with Python's update-in-place-or-append insertion semantics, and Python
exceptions are modelled as an explicit error sum type threaded through each
operation together with the (possibly mutated) registry state.
-/

namespace TrivAI

/-- Python-style dictionary lookup on an association list (keys are unique
because `dset` updates in place). -/
def dget {κ α : Type} [DecidableEq κ] : List (κ × α) → κ → Option α
  | [], _ => none
  | (k', v) :: rest, k => if k' = k then some v else dget rest k

/-- Python-style dictionary write `d[k] = v`: update the existing key in
place, or append a new entry (Python dicts are insertion ordered). -/
def dset {κ α : Type} [DecidableEq κ] : List (κ × α) → κ → α → List (κ × α)
  | [], k, v => [(k, v)]
  | (k', v') :: rest, k, v =>
      if k' = k then (k, v) :: rest else (k', v') :: dset rest k v

/-- Model of `models.QuizQuestion`: question text, choices, and the correct answer. -/
structure QuizQuestion where
  question : String
  choices : List String
  answer : String
deriving DecidableEq, Repr

/-- Model of `models.QuizResponse`: a quiz title plus the ordered question list. -/
structure QuizResponse where
  quiz_title : String
  questions : List QuizQuestion
deriving DecidableEq, Repr

/-- Room status literal: `"waiting" | "in_progress" | "finished"`. -/
inductive RoomStatus where
  | waiting
  | in_progress
  | finished
deriving DecidableEq, Repr

/-- One entry of a player's per-question answer history
(`player["answers"][index] = {"answer": ..., "is_correct": ...}`). -/
structure PlayerAnswer where
  answer : String
  is_correct : Bool
deriving DecidableEq, Repr

/-- A player record stored in `room["players"]`. -/
structure Player where
  id : String
  name : String
  score : Nat
  answers : List (Nat × PlayerAnswer)
deriving DecidableEq, Repr

/-- A room record stored in the `_rooms` registry. -/
structure Room where
  code : String
  host_id : String
  host_name : String
  quiz : QuizResponse
  difficulty : String
  status : RoomStatus
  current_question_index : Option Nat
  players : List (String × Player)
  answers : List (String × String)
deriving DecidableEq, Repr

/-- The module-level `_rooms` dict: code → room. -/
def Registry : Type := List (String × Room)

instance : DecidableEq Registry := by
  unfold Registry; infer_instance

/-- The errors an operation can surface: the three classified `RoomError`
kinds plus Python's `IndexError` from the unguarded question lookup. -/
inductive PyError where
  | roomNotFound
  | unauthorized
  | invalidAction
  | indexError
deriving DecidableEq, Repr

/-- Model of `models.ActiveQuestion`: the view of the question currently played. -/
structure ActiveQuestion where
  question_index : Nat
  question_number : Nat
  question : String
  choices : List String
  total_questions : Nat
deriving DecidableEq, Repr

/-- Model of `models.RoomPlayerState`: a player's status within a room. -/
structure RoomPlayerState where
  player_id : String
  name : String
  score : Nat
  has_answered_current : Bool
deriving DecidableEq, Repr

/-- Model of `models.RoomStateResponse`: the state projection returned to clients. -/
structure RoomStateResponse where
  room_code : String
  status : RoomStatus
  quiz_title : String
  difficulty : String
  current_question_index : Option Nat
  question_count : Nat
  players : List RoomPlayerState
  question : Option ActiveQuestion
deriving DecidableEq, Repr

/-- Model of `models.CreateRoomResponse`. -/
structure CreateRoomResponse where
  room_code : String
  host_id : String
  quiz : QuizResponse
deriving DecidableEq, Repr

/-- Model of `models.JoinRoomResponse`. -/
structure JoinRoomResponse where
  room_code : String
  player_id : String
  quiz_title : String
  status : RoomStatus
deriving DecidableEq, Repr

/-- Model of `models.SubmitAnswerRequest`. -/
structure SubmitAnswerRequest where
  player_id : String
  answer : String
deriving DecidableEq, Repr

/-- Constant `ROOM_CODE_LENGTH = 6`. -/
def ROOM_CODE_LENGTH : Nat := 6

/-- Constant `ROOM_CODE_ALPHABET = string.ascii_uppercase + string.digits`. -/
def ROOM_CODE_ALPHABET : List Char := "ABCDEFGHIJKLMNOPQRSTUVWXYZ0123456789".toList

/-- Python `str.strip()` (no argument): drop leading and trailing
whitespace, modelled character-wise on the underlying character list. -/
def strip (s : String) : String :=
  String.mk (((s.data.dropWhile Char.isWhitespace).reverse.dropWhile
    Char.isWhitespace).reverse)

/-- Python `str.upper()`, modelled character-wise (ASCII case mapping). -/
def upper (s : String) : String :=
  String.mk (s.data.map Char.toUpper)

/-- Model of `_normalize_code`: `code.strip().upper()`. -/
def normalize_code (code : String) : String := upper (strip code)

/-- Model of `_generate_room_code`, with the stream of `secrets.choice` draws made
explicit: each element of `draws` is one loop iteration's 6 random
characters; the loop returns the first candidate code not already in the
registry (`none` models the loop never finding one within the given draws —
the real loop would keep drawing). -/
def generate_room_code (reg : Registry) : List (List Char) → Option String
  | [] => none
  | draw :: rest =>
      let code := String.mk draw
      if dget reg code = none then some code else generate_room_code reg rest

/-- Model of `_build_room_state`: the derived, read-only state projection. -/
def build_room_state (room : Room) : RoomStateResponse :=
  let current_index := room.current_question_index
  let total_questions := room.quiz.questions.length
  let active_question : Option ActiveQuestion :=
    match current_index with
    | none => none
    | some i =>
        if room.status = RoomStatus.in_progress then
          match room.quiz.questions[i]? with
          | some question_model =>
              some { question_index := i
                     question_number := i + 1
                     question := question_model.question
                     choices := question_model.choices
                     total_questions := total_questions }
          | none => none
        else none
  let players_state : List RoomPlayerState :=
    room.players.map fun kv =>
      { player_id := kv.2.id
        name := kv.2.name
        score := kv.2.score
        has_answered_current :=
          decide (room.status = RoomStatus.in_progress)
            && current_index.isSome
            && (dget room.answers kv.2.id).isSome }
  { room_code := room.code
    status := room.status
    quiz_title := room.quiz.quiz_title
    difficulty := room.difficulty
    current_question_index := current_index
    question_count := total_questions
    players := players_state
    question := active_question }

/-- Model of `create_room`: the `uuid4()` host credential and the random code draws
are explicit inputs; `h` models the fact that the generation loop terminates
(a fresh code is eventually drawn).  `create_room` itself never raises. -/
def create_room (reg : Registry) (host_name : String) (quiz : QuizResponse)
    (difficulty : String) (draws : List (List Char)) (host_id : String)
    (h : (generate_room_code reg draws).isSome) :
    Registry × CreateRoomResponse :=
  let code := (generate_room_code reg draws).get h
  let room : Room :=
    { code := code
      host_id := host_id
      host_name := host_name
      quiz := quiz
      difficulty := difficulty
      status := RoomStatus.waiting
      current_question_index := none
      players := []
      answers := [] }
  (dset reg code room, { room_code := code, host_id := host_id, quiz := quiz })

/-- Model of `join_room`: the fresh `uuid4()` player credential is an explicit input. -/
def join_room (reg : Registry) (code : String) (player_name : String)
    (player_id : String) : Registry × Except PyError JoinRoomResponse :=
  let normalized_code := normalize_code code
  match dget reg normalized_code with
  | none => (reg, Except.error PyError.roomNotFound)
  | some room =>
      let player : Player :=
        { id := player_id, name := player_name, score := 0, answers := [] }
      let room' := { room with players := dset room.players player_id player }
      (dset reg normalized_code room',
        Except.ok
          { room_code := normalized_code
            player_id := player_id
            quiz_title := room.quiz.quiz_title
            status := room.status })

/-- Model of `get_room_state`. -/
def get_room_state (reg : Registry) (code : String) :
    Registry × Except PyError RoomStateResponse :=
  match dget reg (normalize_code code) with
  | none => (reg, Except.error PyError.roomNotFound)
  | some room => (reg, Except.ok (build_room_state room))

/-- Model of `start_room`. -/
def start_room (reg : Registry) (code : String) (host_id : String) :
    Registry × Except PyError RoomStateResponse :=
  let normalized_code := normalize_code code
  match dget reg normalized_code with
  | none => (reg, Except.error PyError.roomNotFound)
  | some room =>
      if room.host_id ≠ host_id then
        (reg, Except.error PyError.unauthorized)
      else if room.status ≠ RoomStatus.waiting then
        (reg, Except.error PyError.invalidAction)
      else if room.players = [] then
        (reg, Except.error PyError.invalidAction)
      else
        let room' := { room with
          status := RoomStatus.in_progress
          current_question_index := some 0
          answers := [] }
        (dset reg normalized_code room', Except.ok (build_room_state room'))

/-- Model of `advance_room`.  Note `current_index >= total_questions - 1` is Python
`int` arithmetic; for `current_index ≥ 0` it agrees with truncated `Nat`
subtraction, including the empty-quiz case (`0 >= -1` vs `0 ≥ 0`). -/
def advance_room (reg : Registry) (code : String) (host_id : String) :
    Registry × Except PyError RoomStateResponse :=
  let normalized_code := normalize_code code
  match dget reg normalized_code with
  | none => (reg, Except.error PyError.roomNotFound)
  | some room =>
      if room.host_id ≠ host_id then
        (reg, Except.error PyError.unauthorized)
      else if room.status ≠ RoomStatus.in_progress then
        (reg, Except.error PyError.invalidAction)
      else
        match room.current_question_index with
        | none => (reg, Except.error PyError.invalidAction)
        | some current_index =>
            let total_questions := room.quiz.questions.length
            if current_index ≥ total_questions - 1 then
              let room' := { room with
                status := RoomStatus.finished
                answers := [] }
              (dset reg normalized_code room',
                Except.ok (build_room_state room'))
            else
              let room' := { room with
                current_question_index := some (current_index + 1)
                answers := [] }
              (dset reg normalized_code room',
                Except.ok (build_room_state room'))

/-- Model of `submit_answer`.  The unguarded `room["quiz"].questions[current_index]`
lookup is modelled with `List.get?`; an out-of-range index surfaces as the
unclassified `indexError` (Python `IndexError`, not a `RoomError`). -/
def submit_answer (reg : Registry) (code : String)
    (request : SubmitAnswerRequest) :
    Registry × Except PyError RoomStateResponse :=
  let normalized_code := normalize_code code
  match dget reg normalized_code with
  | none => (reg, Except.error PyError.roomNotFound)
  | some room =>
      if room.status ≠ RoomStatus.in_progress then
        (reg, Except.error PyError.invalidAction)
      else
        match dget room.players request.player_id with
        | none => (reg, Except.error PyError.unauthorized)
        | some player =>
            match room.current_question_index with
            | none => (reg, Except.error PyError.invalidAction)
            | some current_index =>
                if (dget room.answers player.id).isSome then
                  (reg, Except.error PyError.invalidAction)
                else
                  match room.quiz.questions[current_index]? with
                  | none => (reg, Except.error PyError.indexError)
                  | some current_question =>
                      let is_correct :=
                        strip request.answer == current_question.answer
                      let player' := { player with
                        answers := dset player.answers current_index
                          { answer := request.answer, is_correct := is_correct }
                        score := if is_correct then player.score + 1
                          else player.score }
                      let room' := { room with
                        players := dset room.players request.player_id player'
                        answers := dset room.answers player.id request.answer }
                      (dset reg normalized_code room',
                        Except.ok (build_room_state room'))

/-- Replace every question's correct-answer field using `g`, leaving all
other quiz data untouched.  Used to state that the projection is computed
without reference to correct answers. -/
def overwriteAnswers (g : QuizQuestion → String) (quiz : QuizResponse) :
    QuizResponse :=
  { quiz with questions := quiz.questions.map fun q => { q with answer := g q } }

/-- One registry operation (the transition relation of the registry).  The
random draws and the fresh `uuid4()` credentials are arbitrary. -/
inductive Step : Registry → Registry → Prop where
  | create (reg : Registry) (host_name : String) (quiz : QuizResponse)
      (difficulty : String) (draws : List (List Char)) (host_id : String)
      (h : (generate_room_code reg draws).isSome) :
      Step reg (create_room reg host_name quiz difficulty draws host_id h).1
  | join (reg : Registry) (code player_name player_id : String) :
      Step reg (join_room reg code player_name player_id).1
  | getState (reg : Registry) (code : String) :
      Step reg (get_room_state reg code).1
  | start (reg : Registry) (code host_id : String) :
      Step reg (start_room reg code host_id).1
  | advance (reg : Registry) (code host_id : String) :
      Step reg (advance_room reg code host_id).1
  | submit (reg : Registry) (code : String) (request : SubmitAnswerRequest) :
      Step reg (submit_answer reg code request).1

/-- A registry state reachable from the empty initial `_rooms` dict. -/
def Reachable (reg : Registry) : Prop :=
  Relation.ReflTransGen Step [] reg

/-- The per-room invariant: no question index while waiting; once started,
an index exists and stays below `max (number of questions) 1` (so it is a
valid index whenever the quiz is non-empty). -/
def RoomInv (room : Room) : Prop :=
  match room.status with
  | RoomStatus.waiting => room.current_question_index = none
  | _ => ∃ i, room.current_question_index = some i ∧
      i < max room.quiz.questions.length 1

/-- Every room in the registry satisfies `RoomInv`. -/
def RegInv (reg : Registry) : Prop :=
  ∀ code room, dget reg code = some room → RoomInv room

/-! ### Concrete fixtures used by witnesses and counterexamples -/

/-- A two-question quiz (correct answers `"x"` and `"v"`). -/
def wQuiz : QuizResponse :=
  { quiz_title := "Capitals"
    questions :=
      [ { question := "Q1", choices := ["x", "y"], answer := "x" }
      , { question := "Q2", choices := ["u", "v"], answer := "v" } ] }

/-- A player who has not answered anything yet. -/
def wPlayer : Player := { id := "P1", name := "Alice", score := 0, answers := [] }

/-- A waiting room with one player. -/
def wRoomWaiting : Room :=
  { code := "AAAAAA", host_id := "H", host_name := "Host", quiz := wQuiz
    difficulty := "Medium", status := RoomStatus.waiting
    current_question_index := none
    players := [("P1", wPlayer)], answers := [] }

/-- An in-progress room on question 0 where nobody has answered. -/
def wRoomInProgress : Room :=
  { wRoomWaiting with
    status := RoomStatus.in_progress
    current_question_index := some 0 }

/-- Registry holding only `wRoomWaiting`. -/
def wRegWaiting : Registry := [("AAAAAA", wRoomWaiting)]

/-- Registry holding only `wRoomInProgress`. -/
def wRegInProgress : Registry := [("AAAAAA", wRoomInProgress)]

/-- A one-question quiz used for the finished-room run. -/
def c9_quiz : QuizResponse :=
  { quiz_title := "One", questions := [{ question := "Q", choices := ["a", "b"], answer := "a" }] }

/-- Created: one room `"AAAAAA"`, waiting. -/
def c9_reg1 : Registry :=
  (create_room [] "Host" c9_quiz "Medium" ["AAAAAA".toList] "H" (by decide)).1

/-- Alice joined. -/
def c9_reg2 : Registry := (join_room c9_reg1 "AAAAAA" "Alice" "P1").1

/-- Started: in progress on question 0. -/
def c9_reg3 : Registry := (start_room c9_reg2 "AAAAAA" "H").1

/-- Advanced past the only question: finished. -/
def c9_reg4 : Registry := (advance_room c9_reg3 "AAAAAA" "H").1

/-- The stored state of the room `"AAAAAA"` in `c9_reg4`. -/
def c9_room4 : Room :=
  { code := "AAAAAA", host_id := "H", host_name := "Host", quiz := c9_quiz
    difficulty := "Medium", status := RoomStatus.finished
    current_question_index := some 0
    players := [("P1", { id := "P1", name := "Alice", score := 0, answers := [] })]
    answers := [] }

/-- A quiz with no questions at all. -/
def eQuiz : QuizResponse := { quiz_title := "Empty", questions := [] }

/-- Created with the empty quiz. -/
def e_reg1 : Registry :=
  (create_room [] "Host" eQuiz "Medium" ["BBBBBB".toList] "H" (by decide)).1

/-- Bob joined the empty-quiz room. -/
def e_reg2 : Registry := (join_room e_reg1 "BBBBBB" "Bob" "P2").1

/-- The empty-quiz room started: in progress on index 0 of zero questions. -/
def e_reg3 : Registry := (start_room e_reg2 "BBBBBB" "H").1

/-- Bob's player record in the empty-quiz room. -/
def e_player : Player := { id := "P2", name := "Bob", score := 0, answers := [] }

/-- The stored state of the room `"BBBBBB"` in `e_reg3`. -/
def e_room3 : Room :=
  { code := "BBBBBB", host_id := "H", host_name := "Host", quiz := eQuiz
    difficulty := "Medium", status := RoomStatus.in_progress
    current_question_index := some 0
    players := [("P2", e_player)], answers := [] }

/-! ### Dictionary lemmas -/

theorem dget_dset {κ α : Type} [DecidableEq κ] (d : List (κ × α)) (k k' : κ)
    (v : α) : dget (dset d k v) k' = if k = k' then some v else dget d k' := by
  induction d with
  | nil => by_cases h : k = k' <;> simp [dget, dset, h]
  | cons hd tl ih =>
      obtain ⟨k₀, v₀⟩ := hd
      by_cases h₀ : k₀ = k
      · subst h₀
        by_cases h₁ : k₀ = k' <;> simp [dget, dset, h₁]
      · by_cases h₁ : k₀ = k'
        · subst h₁
          have : ¬ k = k₀ := fun hh => h₀ hh.symm
          simp [dget, dset, h₀, this]
        · simp [dget, dset, h₀, h₁, ih]

theorem dget_dset_self {κ α : Type} [DecidableEq κ] (d : List (κ × α)) (k : κ)
    (v : α) : dget (dset d k v) k = some v := by
  simp [dget_dset]

/-! ### Room-code generation -/

theorem generate_room_code_spec (reg : Registry) (draws : List (List Char))
    (code : String) (h : generate_room_code reg draws = some code) :
    ∃ draw ∈ draws, code = String.mk draw ∧ dget reg code = none := by
  induction draws with
  | nil => simp [generate_room_code] at h
  | cons d rest ih =>
      rw [generate_room_code] at h
      by_cases hd : dget reg (String.mk d) = none
      · rw [if_pos hd] at h
        obtain rfl := Option.some.inj h
        exact ⟨d, by simp, rfl, hd⟩
      · rw [if_neg hd] at h
        obtain ⟨draw, hmem, hcode, hfresh⟩ := ih h
        exact ⟨draw, by simp [hmem], hcode, hfresh⟩

/-! ### Failure leaves the registry untouched (frame lemmas) -/

theorem join_room_frame (reg : Registry) (code player_name player_id : String)
    (e : PyError) (h : (join_room reg code player_name player_id).2 = Except.error e) :
    (join_room reg code player_name player_id).1 = reg := by
  rcases hd : dget reg (normalize_code code) with _ | room
  · simp [join_room, hd]
  · simp [join_room, hd] at h

theorem get_room_state_frame (reg : Registry) (code : String) :
    (get_room_state reg code).1 = reg := by
  rcases hd : dget reg (normalize_code code) with _ | room <;>
    simp [get_room_state, hd]

theorem start_room_frame (reg : Registry) (code host_id : String)
    (e : PyError) (h : (start_room reg code host_id).2 = Except.error e) :
    (start_room reg code host_id).1 = reg := by
  rcases hd : dget reg (normalize_code code) with _ | room
  · simp [start_room, hd]
  · by_cases h1 : room.host_id ≠ host_id
    · simp [start_room, hd, h1]
    · by_cases h2 : room.status ≠ RoomStatus.waiting
      · simp [start_room, hd, h1, h2]
      · by_cases h3 : room.players = []
        · simp [start_room, hd, h1, h2, h3]
        · simp [start_room, hd, h1, h2, h3] at h

theorem advance_room_frame (reg : Registry) (code host_id : String)
    (e : PyError) (h : (advance_room reg code host_id).2 = Except.error e) :
    (advance_room reg code host_id).1 = reg := by
  rcases hd : dget reg (normalize_code code) with _ | room
  · simp [advance_room, hd]
  · by_cases h1 : room.host_id ≠ host_id
    · simp [advance_room, hd, h1]
    · by_cases h2 : room.status ≠ RoomStatus.in_progress
      · simp [advance_room, hd, h1, h2]
      · rcases hi : room.current_question_index with _ | i
        · simp [advance_room, hd, h1, h2, hi]
        · by_cases h3 : i ≥ room.quiz.questions.length - 1 <;>
            simp [advance_room, hd, h1, h2, hi, h3] at h

theorem submit_answer_frame (reg : Registry) (code : String)
    (request : SubmitAnswerRequest) (e : PyError)
    (h : (submit_answer reg code request).2 = Except.error e) :
    (submit_answer reg code request).1 = reg := by
  rcases hd : dget reg (normalize_code code) with _ | room
  · simp [submit_answer, hd]
  · by_cases h1 : room.status ≠ RoomStatus.in_progress
    · simp [submit_answer, hd, h1]
    · rcases hp : dget room.players request.player_id with _ | player
      · simp [submit_answer, hd, h1, hp]
      · rcases hi : room.current_question_index with _ | i
        · simp [submit_answer, hd, h1, hp, hi]
        · by_cases h2 : (dget room.answers player.id).isSome
          · simp [submit_answer, hd, h1, hp, hi, h2]
          · rcases hq : room.quiz.questions[i]? with _ | q
            · simp [submit_answer, hd, h1, hp, hi, h2, hq]
            · simp [submit_answer, hd, h1, hp, hi, h2, hq] at h

/-! ### The reachability invariant -/

theorem regInv_dset (reg : Registry) (k : String) (room : Room)
    (h : RegInv reg) (hr : RoomInv room) : RegInv (dset reg k room) := by
  intro c r hc
  rw [dget_dset] at hc
  split at hc
  · exact Option.some.inj hc ▸ hr
  · exact h c r hc

theorem regInv_create (reg : Registry) (host_name : String)
    (quiz : QuizResponse) (difficulty : String) (draws : List (List Char))
    (host_id : String) (hgen : (generate_room_code reg draws).isSome)
    (h : RegInv reg) :
    RegInv (create_room reg host_name quiz difficulty draws host_id hgen).1 := by
  exact regInv_dset _ _ _ h (by simp [RoomInv])

theorem regInv_join (reg : Registry) (code player_name player_id : String)
    (h : RegInv reg) : RegInv (join_room reg code player_name player_id).1 := by
  rcases hd : dget reg (normalize_code code) with _ | room
  · simpa [join_room, hd] using h
  · simp only [join_room, hd]
    exact regInv_dset _ _ _ h (by
      have := h _ _ hd
      simpa [RoomInv] using this)

theorem regInv_start (reg : Registry) (code host_id : String)
    (h : RegInv reg) : RegInv (start_room reg code host_id).1 := by
  rcases hd : dget reg (normalize_code code) with _ | room
  · simpa [start_room, hd] using h
  · by_cases h1 : room.host_id ≠ host_id
    · simpa [start_room, hd, h1] using h
    · by_cases h2 : room.status ≠ RoomStatus.waiting
      · simpa [start_room, hd, h1, h2] using h
      · by_cases h3 : room.players = []
        · simpa [start_room, hd, h1, h2, h3] using h
        · simp only [start_room, hd, h1, h2, h3]
          simp only [ite_false, if_neg, if_pos]
          exact regInv_dset _ _ _ h (by
            refine ⟨0, rfl, ?_⟩
            exact Nat.lt_of_lt_of_le Nat.zero_lt_one (le_max_right _ _))

theorem regInv_advance (reg : Registry) (code host_id : String)
    (h : RegInv reg) : RegInv (advance_room reg code host_id).1 := by
  rcases hd : dget reg (normalize_code code) with _ | room
  · simpa [advance_room, hd] using h
  · by_cases h1 : room.host_id ≠ host_id
    · simpa [advance_room, hd, h1] using h
    · by_cases h2 : room.status ≠ RoomStatus.in_progress
      · simpa [advance_room, hd, h1, h2] using h
      · rcases hi : room.current_question_index with _ | i
        · simpa [advance_room, hd, h1, h2, hi] using h
        · have hstatus : room.status = RoomStatus.in_progress := by
            by_contra hc; exact h2 hc
          have hinv := h _ _ hd
          have hibound : i < max room.quiz.questions.length 1 := by
            rw [RoomInv, hstatus] at hinv
            obtain ⟨j, hj, hjb⟩ := hinv
            rw [hi] at hj
            exact Option.some.inj hj ▸ hjb
          by_cases h3 : i ≥ room.quiz.questions.length - 1
          · simp only [advance_room, hd, h1, h2, hi, h3]
            simp only [ite_false, if_neg, if_pos]
            exact regInv_dset _ _ _ h (by
              rw [RoomInv]
              simp only [hi]
              exact ⟨i, rfl, hibound⟩)
          · simp only [advance_room, hd, h1, h2, hi, h3]
            simp only [ite_false, if_neg, if_pos]
            exact regInv_dset _ _ _ h (by
              rw [RoomInv]
              simp only [hstatus]
              refine ⟨i + 1, rfl, ?_⟩
              have : i + 1 < room.quiz.questions.length := by omega
              exact Nat.lt_of_lt_of_le this (le_max_left _ _))

theorem regInv_submit (reg : Registry) (code : String)
    (request : SubmitAnswerRequest) (h : RegInv reg) :
    RegInv (submit_answer reg code request).1 := by
  rcases hd : dget reg (normalize_code code) with _ | room
  · simpa [submit_answer, hd] using h
  · by_cases h1 : room.status ≠ RoomStatus.in_progress
    · simpa [submit_answer, hd, h1] using h
    · rcases hp : dget room.players request.player_id with _ | player
      · simpa [submit_answer, hd, h1, hp] using h
      · rcases hi : room.current_question_index with _ | i
        · simpa [submit_answer, hd, h1, hp, hi] using h
        · by_cases h2 : (dget room.answers player.id).isSome
          · simpa [submit_answer, hd, h1, hp, hi, h2] using h
          · rcases hq : room.quiz.questions[i]? with _ | q
            · simpa [submit_answer, hd, h1, hp, hi, h2, hq] using h
            · have hstatus : room.status = RoomStatus.in_progress := not_not.mp h1
              have hinv := h _ _ hd
              rw [RoomInv, hstatus] at hinv
              obtain ⟨j, hj, hjb⟩ := hinv
              rw [hi] at hj
              obtain rfl := Option.some.inj hj
              simp only [submit_answer, hd, h1, hp, hi, h2, hq]
              simp only [ite_false, if_neg, if_pos]
              exact regInv_dset _ _ _ h (by
                rw [RoomInv]
                simp only [hstatus]
                exact ⟨i, rfl, hjb⟩)

theorem regInv_step {reg reg' : Registry} (h : RegInv reg)
    (hs : Step reg reg') : RegInv reg' := by
  cases hs with
  | create host_name quiz difficulty draws host_id hgen =>
      exact regInv_create reg host_name quiz difficulty draws host_id hgen h
  | join code player_name player_id =>
      exact regInv_join reg code player_name player_id h
  | getState code => rw [get_room_state_frame]; exact h
  | start code host_id => exact regInv_start reg code host_id h
  | advance code host_id => exact regInv_advance reg code host_id h
  | submit code request => exact regInv_submit reg code request h

theorem reachable_regInv {reg : Registry} (h : Reachable reg) : RegInv reg := by
  rw [Reachable] at h
  induction h with
  | refl => intro c r hc; simp [dget] at hc
  | tail _ hs ih => exact regInv_step ih hs

/-! ### Claim theorems -/

/-- C1: in an in-progress room with an active question, a player who has
not answered yet submits an answer: the call succeeds, the player's score
is incremented by exactly 1 iff the whitespace-stripped answer equals the
question's correct-answer string exactly (case-sensitive), the comparison
result and answer text are recorded in the player's per-question history,
and the raw answer is recorded in the room's current-answers map. -/
theorem submit_answer_scoring (reg : Registry) (code : String)
    (req : SubmitAnswerRequest) (room : Room) (player : Player) (i : Nat)
    (q : QuizQuestion)
    (hroom : dget reg (normalize_code code) = some room)
    (hstatus : room.status = RoomStatus.in_progress)
    (hplayer : dget room.players req.player_id = some player)
    (hidx : room.current_question_index = some i)
    (hnew : dget room.answers player.id = none)
    (hq : room.quiz.questions[i]? = some q) :
    ((submit_answer reg code req).2.toOption.isSome = true) ∧
    ((dget (submit_answer reg code req).1 (normalize_code code)).bind
        (fun r => (dget r.players req.player_id).map Player.score))
      = some (if strip req.answer == q.answer then player.score + 1
          else player.score) ∧
    ((dget (submit_answer reg code req).1 (normalize_code code)).bind
        (fun r => (dget r.players req.player_id).bind
          (fun p => dget p.answers i)))
      = some { answer := req.answer
               is_correct := strip req.answer == q.answer } ∧
    ((dget (submit_answer reg code req).1 (normalize_code code)).map
        (fun r => dget r.answers player.id)) = some (some req.answer) := by
  have hstat' : ¬ room.status ≠ RoomStatus.in_progress := by simp [hstatus]
  have hnew' : ¬ (dget room.answers player.id).isSome = true := by simp [hnew]
  simp [submit_answer, hroom, hstat', hplayer, hidx, hnew', hq,
    dget_dset_self, dget_dset, Except.toOption]

/-- C1 witness: in the concrete in-progress room, Alice submits `" x "`,
which strips to the correct answer `"x"`: her score becomes 1. -/
theorem submit_answer_scoring_witness :
    ((dget (submit_answer wRegInProgress "AAAAAA"
          { player_id := "P1", answer := " x " }).1
        (normalize_code "AAAAAA")).bind
      (fun r => (dget r.players "P1").map Player.score)) = some 1 := by
  have h := submit_answer_scoring wRegInProgress "AAAAAA"
    { player_id := "P1", answer := " x " } wRoomInProgress wPlayer 0
    { question := "Q1", choices := ["x", "y"], answer := "x" }
    (by decide) (by decide) (by decide) (by decide) (by decide) (by decide)
  rw [h.2.1]
  decide

/-- C2: at most one answer per player per question: if the player's id is
already a key in the room's current-answers map the call fails with
InvalidAction leaving the registry unchanged, and after a successful
submission a second call by the same player fails with InvalidAction, so
the score rises by at most 1 for the question no matter how many calls are
made. -/
theorem submit_answer_no_resubmit (reg : Registry) (code : String)
    (req req2 : SubmitAnswerRequest) (room : Room) (player : Player) (i : Nat)
    (hroom : dget reg (normalize_code code) = some room)
    (hstatus : room.status = RoomStatus.in_progress)
    (hplayer : dget room.players req.player_id = some player)
    (hidx : room.current_question_index = some i)
    (hreq2 : req2.player_id = req.player_id) :
    ((dget room.answers player.id).isSome = true →
        submit_answer reg code req = (reg, Except.error PyError.invalidAction)) ∧
    ((submit_answer reg code req).2.toOption.isSome = true →
        submit_answer (submit_answer reg code req).1 code req2
          = ((submit_answer reg code req).1,
              Except.error PyError.invalidAction) ∧
        ∃ s, ((dget (submit_answer reg code req).1 (normalize_code code)).bind
                (fun r => (dget r.players req.player_id).map Player.score))
              = some s ∧ s ≤ player.score + 1) := by
  have hstat' : ¬ room.status ≠ RoomStatus.in_progress := by simp [hstatus]
  constructor
  · intro hdone
    simp [submit_answer, hroom, hstat', hplayer, hidx, hdone]
  · intro hok
    rcases hnew : dget room.answers player.id with _ | a
    · rcases hq : room.quiz.questions[i]? with _ | q
      · simp [submit_answer, hroom, hstat', hplayer, hidx, hnew, hq,
          Except.toOption] at hok
      · have hnew' : ¬ (dget room.answers player.id).isSome = true := by
          simp [hnew]
        simp only [submit_answer, hroom, hstat', hplayer, hidx, hnew', hq,
          ite_false, if_neg, if_pos]
        refine ⟨?_, ?_⟩
        · simp [submit_answer, dget_dset_self, hreq2, hstat', hstatus, hidx]
        · refine ⟨if strip req.answer = q.answer then player.score + 1
            else player.score, ?_, ?_⟩
          · simp [dget_dset_self, dget_dset]
          · split <;> omega
    · simp [submit_answer, hroom, hstat', hplayer, hidx, hnew,
        Except.toOption] at hok

/-- C2 witness: Alice answers once in the concrete room; the immediate
resubmission fails with InvalidAction and leaves the registry as it was
after the first call. -/
theorem submit_answer_no_resubmit_witness :
    submit_answer (submit_answer wRegInProgress "AAAAAA"
        { player_id := "P1", answer := "x" }).1 "AAAAAA"
        { player_id := "P1", answer := "y" }
      = ((submit_answer wRegInProgress "AAAAAA"
            { player_id := "P1", answer := "x" }).1,
          Except.error PyError.invalidAction) :=
  ((submit_answer_no_resubmit wRegInProgress "AAAAAA"
      { player_id := "P1", answer := "x" }
      { player_id := "P1", answer := "y" } wRoomInProgress wPlayer 0
      (by decide) (by decide) (by decide) (by decide) (by decide)).2
    (by decide)).1

/-- C3: `start` fails with RoomNotFound on an unknown code, Unauthorized on
a host-credential mismatch, InvalidAction when the status is not Waiting or
the player set is empty; on success it sets status to InProgress, the
question index to 0, and clears the current answers. -/
theorem start_room_spec (reg : Registry) (code host_id : String) (room : Room)
    (hroom : dget reg (normalize_code code) = some room) :
    (∀ c2 : String, dget reg (normalize_code c2) = none →
        start_room reg c2 host_id = (reg, Except.error PyError.roomNotFound)) ∧
    (room.host_id ≠ host_id →
        start_room reg code host_id = (reg, Except.error PyError.unauthorized)) ∧
    (room.host_id = host_id → room.status ≠ RoomStatus.waiting →
        start_room reg code host_id = (reg, Except.error PyError.invalidAction)) ∧
    (room.host_id = host_id → room.status = RoomStatus.waiting →
        room.players = [] →
        start_room reg code host_id = (reg, Except.error PyError.invalidAction)) ∧
    (room.host_id = host_id → room.status = RoomStatus.waiting →
        room.players ≠ [] →
        ((dget (start_room reg code host_id).1 (normalize_code code)).map
            Room.status = some RoomStatus.in_progress ∧
          (dget (start_room reg code host_id).1 (normalize_code code)).map
            Room.current_question_index = some (some 0) ∧
          (dget (start_room reg code host_id).1 (normalize_code code)).map
            Room.answers = some [] ∧
          (start_room reg code host_id).2.toOption.isSome = true)) := by
  refine ⟨?_, ?_, ?_, ?_, ?_⟩
  · intro c2 hnone
    simp [start_room, hnone]
  · intro hh
    simp [start_room, hroom, hh]
  · intro hh hs
    simp [start_room, hroom, hh, hs]
  · intro hh hs hp
    simp [start_room, hroom, hh, hs, hp]
  · intro hh hs hp
    simp [start_room, hroom, hh, hs, hp, dget_dset_self, Except.toOption]

/-- C3 witness: starting the concrete waiting room with the right host
credential succeeds and moves it to InProgress at question 0 with no
current answers. -/
theorem start_room_spec_witness :
    (dget (start_room wRegWaiting "AAAAAA" "H").1 (normalize_code "AAAAAA")).map
        Room.status = some RoomStatus.in_progress ∧
      (dget (start_room wRegWaiting "AAAAAA" "H").1 (normalize_code "AAAAAA")).map
        Room.current_question_index = some (some 0) ∧
      (dget (start_room wRegWaiting "AAAAAA" "H").1 (normalize_code "AAAAAA")).map
        Room.answers = some [] ∧
      (start_room wRegWaiting "AAAAAA" "H").2.toOption.isSome = true :=
  (start_room_spec wRegWaiting "AAAAAA" "H" wRoomWaiting
      (by decide)).2.2.2.2 rfl rfl (by decide)

/-- C4: with the correct host credential on an InProgress room whose index
is in range (the data-model invariant), `advance` finishes the game and
clears the answers when the index is the last one, and otherwise increments
the index by exactly 1 and clears the answers; a room that is not
InProgress (including Finished) yields InvalidAction, and every projection
of a Finished room omits the ActiveQuestion view. -/
theorem advance_room_spec (reg : Registry) (code host_id : String)
    (room : Room) (i : Nat)
    (hroom : dget reg (normalize_code code) = some room)
    (hhost : room.host_id = host_id) :
    (room.status ≠ RoomStatus.in_progress →
        advance_room reg code host_id = (reg, Except.error PyError.invalidAction)) ∧
    (room.status = RoomStatus.in_progress →
        room.current_question_index = some i →
        i < room.quiz.questions.length →
        ((i = room.quiz.questions.length - 1 →
            (dget (advance_room reg code host_id).1 (normalize_code code)).map
                Room.status = some RoomStatus.finished ∧
            (dget (advance_room reg code host_id).1 (normalize_code code)).map
                Room.answers = some [] ∧
            ∃ resp, (advance_room reg code host_id).2 = Except.ok resp ∧
                resp.question = none) ∧
          (i ≠ room.quiz.questions.length - 1 →
            (dget (advance_room reg code host_id).1 (normalize_code code)).map
                Room.status = some RoomStatus.in_progress ∧
            (dget (advance_room reg code host_id).1 (normalize_code code)).map
                Room.current_question_index = some (some (i + 1)) ∧
            (dget (advance_room reg code host_id).1 (normalize_code code)).map
                Room.answers = some []))) ∧
    (∀ r : Room, r.status = RoomStatus.finished →
        (build_room_state r).question = none) := by
  refine ⟨?_, ?_, ?_⟩
  · intro hs
    simp [advance_room, hroom, hhost, hs]
  · intro hs hi hlt
    constructor
    · intro hlast
      have hge : i ≥ room.quiz.questions.length - 1 := Nat.le_of_eq hlast.symm
      refine ⟨?_, ?_, ?_⟩
      · simp [advance_room, hroom, hhost, hs, hi, hge, dget_dset_self]
      · simp [advance_room, hroom, hhost, hs, hi, hge, dget_dset_self]
      · have hres : (advance_room reg code host_id).2
            = Except.ok (build_room_state { room with
                status := RoomStatus.finished, answers := [] }) := by
          simp [advance_room, hroom, hhost, hs, hi, hge]
        refine ⟨_, hres, ?_⟩
        rw [build_room_state]
        simp [hi]
    · intro hne
      have hnge : ¬ i ≥ room.quiz.questions.length - 1 := by omega
      refine ⟨?_, ?_, ?_⟩ <;>
        simp [advance_room, hroom, hhost, hs, hi, hnge, dget_dset_self]
  · intro r hr
    rw [build_room_state]
    rcases r.current_question_index with _ | j <;> simp [hr]

/-- C4 witness: advancing the concrete in-progress two-question room from
question 0 (not the last) moves it to question 1, still InProgress, with
the current answers cleared. -/
theorem advance_room_spec_witness :
    (dget (advance_room wRegInProgress "AAAAAA" "H").1 (normalize_code "AAAAAA")).map
        Room.status = some RoomStatus.in_progress ∧
      (dget (advance_room wRegInProgress "AAAAAA" "H").1 (normalize_code "AAAAAA")).map
        Room.current_question_index = some (some 1) ∧
      (dget (advance_room wRegInProgress "AAAAAA" "H").1 (normalize_code "AAAAAA")).map
        Room.answers = some [] :=
  ((advance_room_spec wRegInProgress "AAAAAA" "H" wRoomInProgress 0
      (by decide) rfl).2.1 rfl rfl (by decide)).2 (by decide)

/-- C5: the state projection never depends on any question's correct-answer
string: rewriting every correct answer arbitrarily leaves the projection —
room data, every player entry, and the ActiveQuestion view (index, display
number, question text, choices, total count) — unchanged, so no projection
field can carry a correct answer beyond what the choices list contains. -/
theorem build_room_state_no_answer_leak (room : Room)
    (g : QuizQuestion → String) :
    build_room_state { room with quiz := overwriteAnswers g room.quiz }
      = build_room_state room := by
  rw [build_room_state, build_room_state]
  simp only [overwriteAnswers, List.length_map]
  rcases room.current_question_index with _ | i
  · rfl
  · simp only [List.getElem?_map]
    rcases room.quiz.questions[i]? with _ | q <;> simp

/-- C6: every mutating operation is atomic with respect to failure: when
join, start, advance or submitAnswer returns an error, the registry is
exactly what it was before the call; in particular, join on an unknown code
fails with RoomNotFound creating no player, and start with a forged host
credential fails with Unauthorized leaving the room's status unchanged
(Waiting stays Waiting). -/
theorem mutating_ops_atomic (reg : Registry)
    (code host_id player_name player_id : String)
    (req : SubmitAnswerRequest) (e1 e2 e3 e4 : PyError) :
    ((join_room reg code player_name player_id).2 = Except.error e1 →
        (join_room reg code player_name player_id).1 = reg) ∧
    ((start_room reg code host_id).2 = Except.error e2 →
        (start_room reg code host_id).1 = reg) ∧
    ((advance_room reg code host_id).2 = Except.error e3 →
        (advance_room reg code host_id).1 = reg) ∧
    ((submit_answer reg code req).2 = Except.error e4 →
        (submit_answer reg code req).1 = reg) ∧
    (dget reg (normalize_code code) = none →
        join_room reg code player_name player_id
          = (reg, Except.error PyError.roomNotFound)) ∧
    (∀ room, dget reg (normalize_code code) = some room →
        room.host_id ≠ host_id →
        start_room reg code host_id = (reg, Except.error PyError.unauthorized) ∧
        (dget (start_room reg code host_id).1 (normalize_code code)).map
            Room.status = some room.status) := by
  refine ⟨join_room_frame reg code player_name player_id e1,
    start_room_frame reg code host_id e2,
    advance_room_frame reg code host_id e3,
    submit_answer_frame reg code req e4, ?_, ?_⟩
  · intro hnone
    simp [join_room, hnone]
  · intro room hroom hh
    have : start_room reg code host_id
        = (reg, Except.error PyError.unauthorized) := by
      simp [start_room, hroom, hh]
    exact ⟨this, by rw [this]; simp [hroom]⟩

/-- C6 witness: join on a code that was never created fails with
RoomNotFound and leaves the empty registry empty. -/
theorem mutating_ops_atomic_witness :
    join_room [] "ZZZZZZ" "Eve" "P9"
      = ([], Except.error PyError.roomNotFound) :=
  (mutating_ops_atomic [] "ZZZZZZ" "H" "Eve" "P9"
      { player_id := "P9", answer := "a" }
      PyError.roomNotFound PyError.roomNotFound PyError.roomNotFound
      PyError.roomNotFound).2.2.2.2.1 (by decide)

/-- C7: a successful create returns a 6-character code drawn from the
uppercase-alphanumeric alphabet that no currently-live room uses, and
stores a fresh room carrying the supplied host credential with status
Waiting, no question index, no players, and no answers. -/
theorem create_room_spec (reg : Registry) (host_name : String)
    (quiz : QuizResponse) (difficulty : String) (draws : List (List Char))
    (host_id : String) (hgen : (generate_room_code reg draws).isSome)
    (hdraws : ∀ draw ∈ draws, draw.length = ROOM_CODE_LENGTH ∧
        ∀ c ∈ draw, c ∈ ROOM_CODE_ALPHABET) :
    (create_room reg host_name quiz difficulty draws host_id
        hgen).2.room_code.length = ROOM_CODE_LENGTH ∧
    (∀ c ∈ (create_room reg host_name quiz difficulty draws host_id
        hgen).2.room_code.data, c ∈ ROOM_CODE_ALPHABET) ∧
    dget reg (create_room reg host_name quiz difficulty draws host_id
        hgen).2.room_code = none ∧
    (create_room reg host_name quiz difficulty draws host_id
        hgen).2.host_id = host_id ∧
    dget (create_room reg host_name quiz difficulty draws host_id hgen).1
        (create_room reg host_name quiz difficulty draws host_id
          hgen).2.room_code
      = some
        { code := (create_room reg host_name quiz difficulty draws host_id
            hgen).2.room_code
          host_id := host_id
          host_name := host_name
          quiz := quiz
          difficulty := difficulty
          status := RoomStatus.waiting
          current_question_index := none
          players := []
          answers := [] } := by
  have hcode : generate_room_code reg draws
      = some ((generate_room_code reg draws).get hgen) :=
    (Option.some_get hgen).symm
  obtain ⟨draw, hmem, hmk, hfresh⟩ :=
    generate_room_code_spec reg draws _ hcode
  obtain ⟨hlen, halpha⟩ := hdraws draw hmem
  have hrc : (create_room reg host_name quiz difficulty draws host_id
      hgen).2.room_code = (generate_room_code reg draws).get hgen := rfl
  refine ⟨?_, ?_, ?_, rfl, ?_⟩
  · rw [hrc, hmk]
    simpa [String.length] using hlen
  · intro c hc
    rw [hrc, hmk] at hc
    exact halpha c hc
  · rw [hrc, hmk]
    rw [hmk] at hfresh
    exact hfresh
  · simpa [create_room] using dget_dset_self reg _ _

/-- C7 witness: creating a room in the empty registry with the draw
`"AAAAAA"` yields that 6-character alphanumeric code, unused before, and a
fresh Waiting room with no index, players, or answers. -/
theorem create_room_spec_witness :
    (create_room [] "Host" wQuiz "Medium" ["AAAAAA".toList] "H"
        (by decide)).2.room_code.length = ROOM_CODE_LENGTH ∧
    (∀ c ∈ (create_room [] "Host" wQuiz "Medium" ["AAAAAA".toList] "H"
        (by decide)).2.room_code.data, c ∈ ROOM_CODE_ALPHABET) ∧
    dget ([] : Registry) (create_room [] "Host" wQuiz "Medium"
        ["AAAAAA".toList] "H" (by decide)).2.room_code = none ∧
    (create_room [] "Host" wQuiz "Medium" ["AAAAAA".toList] "H"
        (by decide)).2.host_id = "H" ∧
    dget (create_room [] "Host" wQuiz "Medium" ["AAAAAA".toList] "H"
        (by decide)).1
        (create_room [] "Host" wQuiz "Medium" ["AAAAAA".toList] "H"
          (by decide)).2.room_code
      = some
        { code := (create_room [] "Host" wQuiz "Medium" ["AAAAAA".toList] "H"
            (by decide)).2.room_code
          host_id := "H"
          host_name := "Host"
          quiz := wQuiz
          difficulty := "Medium"
          status := RoomStatus.waiting
          current_question_index := none
          players := []
          answers := [] } :=
  create_room_spec [] "Host" wQuiz "Medium" ["AAAAAA".toList] "H"
    (by decide) (by decide)

/-- C8: in every projection a player's hasAnsweredCurrent flag is true iff
the room is InProgress, a current question index exists, and the player's
id is a key of the current-answers map; and after every successful advance
(which clears the answers) the flag is false for every player. -/
theorem has_answered_current_spec :
    (∀ room : Room, ∀ ps ∈ (build_room_state room).players,
        (ps.has_answered_current = true ↔
          (room.status = RoomStatus.in_progress ∧
            room.current_question_index.isSome = true ∧
            (dget room.answers ps.player_id).isSome = true))) ∧
    (∀ (reg : Registry) (code host_id : String) (reg' : Registry)
        (resp : RoomStateResponse),
        advance_room reg code host_id = (reg', Except.ok resp) →
        ∀ ps ∈ resp.players, ps.has_answered_current = false) := by
  constructor
  · intro room ps hps
    rw [build_room_state] at hps
    simp only [List.mem_map] at hps
    obtain ⟨kv, _, rfl⟩ := hps
    simp [Bool.and_eq_true, decide_eq_true_iff, and_assoc]
  · intro reg code host_id reg' resp hadv ps hps
    rcases hd : dget reg (normalize_code code) with _ | room
    · simp [advance_room, hd] at hadv
    · by_cases h1 : room.host_id ≠ host_id
      · simp [advance_room, hd, h1] at hadv
      · by_cases h2 : room.status ≠ RoomStatus.in_progress
        · simp [advance_room, hd, h1, h2] at hadv
        · rcases hi : room.current_question_index with _ | i
          · simp [advance_room, hd, h1, h2, hi] at hadv
          · by_cases h3 : i ≥ room.quiz.questions.length - 1 <;>
            · simp [advance_room, hd, h1, h2, hi, h3] at hadv
              obtain ⟨-, rfl⟩ := hadv
              rw [build_room_state] at hps
              simp only [List.mem_map] at hps
              obtain ⟨kv, -, rfl⟩ := hps
              simp [dget]

/-- C8 witness: in the concrete in-progress room where nobody has answered,
Alice's projected hasAnsweredCurrent flag is false (the iff instantiated at
her entry). -/
theorem has_answered_current_spec_witness :
    ({ player_id := "P1", name := "Alice", score := 0
       has_answered_current := false } : RoomPlayerState).has_answered_current
        = true ↔
      (wRoomInProgress.status = RoomStatus.in_progress ∧
        wRoomInProgress.current_question_index.isSome = true ∧
        (dget wRoomInProgress.answers "P1").isSome = true) :=
  has_answered_current_spec.1 wRoomInProgress
    { player_id := "P1", name := "Alice", score := 0
      has_answered_current := false } (by decide)

/-- The registry after create·join·start·advance on a one-question quiz is
reachable from the empty registry. -/
theorem reachable_c9_reg4 : Reachable c9_reg4 :=
  Relation.ReflTransGen.tail
    (Relation.ReflTransGen.tail
      (Relation.ReflTransGen.tail
        (Relation.ReflTransGen.single
          (Step.create [] "Host" c9_quiz "Medium" ["AAAAAA".toList] "H"
            (by decide)))
        (Step.join c9_reg1 "AAAAAA" "Alice" "P1"))
      (Step.start c9_reg2 "AAAAAA" "H"))
    (Step.advance c9_reg3 "AAAAAA" "H")

/-- C9 counterexample: after advancing past the last question of a
one-question quiz, the room is Finished yet both the stored room and the
state projection still report currentQuestionIndex 0 — it is not absent. -/
theorem c9_counterexample :
    Reachable c9_reg4 ∧
    (dget c9_reg4 "AAAAAA").map Room.status = some RoomStatus.finished ∧
    (dget c9_reg4 "AAAAAA").map Room.current_question_index
      = some (some 0) ∧
    (get_room_state c9_reg4 "AAAAAA").2.toOption.map
        RoomStateResponse.current_question_index = some (some 0) :=
  ⟨reachable_c9_reg4, by decide, by decide, by decide⟩

/-- C9 (amended): in every reachable registry state,
currentQuestionIndex is absent while the room is Waiting; while InProgress
it is present and, for a non-empty quiz, a valid index into the question
list; while Finished it remains present (at its last value) rather than
absent; and the projection always reports exactly the stored index. -/
theorem currentQuestionIndex_lifecycle (reg : Registry)
    (hreach : Reachable reg) (code : String) (room : Room)
    (hroom : dget reg code = some room) :
    (room.status = RoomStatus.waiting →
        room.current_question_index = none) ∧
    (room.status = RoomStatus.in_progress → room.quiz.questions ≠ [] →
        ∃ i, room.current_question_index = some i ∧
          i < room.quiz.questions.length) ∧
    (room.status = RoomStatus.finished →
        room.current_question_index.isSome = true) ∧
    (build_room_state room).current_question_index
      = room.current_question_index := by
  have hinv := reachable_regInv hreach _ _ hroom
  refine ⟨?_, ?_, ?_, rfl⟩
  · intro hw
    rw [RoomInv, hw] at hinv
    exact hinv
  · intro hs hne
    rw [RoomInv, hs] at hinv
    obtain ⟨i, hi, hb⟩ := hinv
    refine ⟨i, hi, ?_⟩
    have : room.quiz.questions.length ≠ 0 := by
      simpa [List.length_eq_zero] using hne
    omega
  · intro hf
    rw [RoomInv, hf] at hinv
    obtain ⟨i, hi, -⟩ := hinv
    simp [hi]

/-- C9 witness: the amended lifecycle statement applied to the concrete
reachable finished room: its stored index is still present. -/
theorem currentQuestionIndex_lifecycle_witness :
    c9_room4.current_question_index.isSome = true :=
  (currentQuestionIndex_lifecycle c9_reg4 reachable_c9_reg4 "AAAAAA"
      c9_room4 (by decide)).2.2.1 rfl

/-- C10: create performs no quiz validation (an empty-question quiz is
accepted and stored as-is); starting such a room with a player succeeds,
and a subsequent submitAnswer hits the unguarded question lookup and fails
with the unclassified index error, not one of the three classified errors;
conversely, in every reachable state a room with a non-empty quiz that is
InProgress has a current index within bounds, so the unguarded lookup in
submitAnswer is always in range. -/
theorem empty_quiz_behavior :
    (∀ (reg : Registry) (host_name : String) (quiz : QuizResponse)
        (difficulty : String) (draws : List (List Char)) (host_id : String)
        (hgen : (generate_room_code reg draws).isSome),
        quiz.questions = [] →
        (create_room reg host_name quiz difficulty draws host_id hgen).2.quiz
            = quiz ∧
        (dget (create_room reg host_name quiz difficulty draws host_id hgen).1
            (create_room reg host_name quiz difficulty draws host_id
              hgen).2.room_code).map Room.quiz = some quiz) ∧
    (∀ (reg : Registry) (code host_id : String) (room : Room),
        dget reg (normalize_code code) = some room →
        room.quiz.questions = [] → room.host_id = host_id →
        room.status = RoomStatus.waiting → room.players ≠ [] →
        (start_room reg code host_id).2.toOption.isSome = true ∧
        (dget (start_room reg code host_id).1 (normalize_code code)).map
            Room.status = some RoomStatus.in_progress ∧
        (dget (start_room reg code host_id).1 (normalize_code code)).map
            Room.current_question_index = some (some 0)) ∧
    (∀ (reg : Registry) (code : String) (req : SubmitAnswerRequest)
        (room : Room) (player : Player) (i : Nat),
        dget reg (normalize_code code) = some room →
        room.quiz.questions = [] →
        room.status = RoomStatus.in_progress →
        dget room.players req.player_id = some player →
        room.current_question_index = some i →
        dget room.answers player.id = none →
        submit_answer reg code req = (reg, Except.error PyError.indexError)) ∧
    (∀ reg : Registry, Reachable reg →
        ∀ (code : String) (room : Room), dget reg code = some room →
        room.quiz.questions ≠ [] → room.status = RoomStatus.in_progress →
        ∃ i, room.current_question_index = some i ∧
          i < room.quiz.questions.length ∧
          (room.quiz.questions[i]?).isSome = true) := by
  refine ⟨?_, ?_, ?_, ?_⟩
  · intro reg host_name quiz difficulty draws host_id hgen _
    exact ⟨rfl, by simp [create_room, dget_dset_self]⟩
  · intro reg code host_id room hroom hq hh hs hp
    simp [start_room, hroom, hh, hs, hp, dget_dset_self, Except.toOption]
  · intro reg code req room player i hroom hq hs hplayer hidx hnew
    have hstat' : ¬ room.status ≠ RoomStatus.in_progress := by simp [hs]
    have hnew' : ¬ (dget room.answers player.id).isSome = true := by simp [hnew]
    have hqi : room.quiz.questions[i]? = none := by
      rw [hq]
      rfl
    simp [submit_answer, hroom, hstat', hplayer, hidx, hnew', hqi]
  · intro reg hreach code room hroom hne hs
    have hinv := reachable_regInv hreach _ _ hroom
    rw [RoomInv, hs] at hinv
    obtain ⟨i, hi, hb⟩ := hinv
    have hlen : room.quiz.questions.length ≠ 0 := by
      simpa [List.length_eq_zero] using hne
    have hlt : i < room.quiz.questions.length := by omega
    exact ⟨i, hi, hlt, by simp [List.getElem?_eq_getElem hlt]⟩

/-- C10 witness: in the concrete started empty-quiz room, Bob's answer
submission raises the unclassified index error and leaves the registry
unchanged. -/
theorem empty_quiz_behavior_witness :
    submit_answer e_reg3 "BBBBBB" { player_id := "P2", answer := "z" }
      = (e_reg3, Except.error PyError.indexError) := by
  exact empty_quiz_behavior.2.2.1 e_reg3 "BBBBBB"
    { player_id := "P2", answer := "z" } e_room3 e_player 0 (by decide)
    (by decide) (by decide) (by decide) (by decide) (by decide)

end TrivAI
